import Mathlib

/-
Verification of the two launcher files of the angelos repository,
`src/angelos_main.c` and `src/logo_main.c`.

Each file is a straight-line `main` that makes four runtime calls in
sequence and then falls off the end of `main` (which in C yields process
exit status 0):

    PyImport_AppendInittab(<name>, PyInit_angelos);
    Py_Initialize();
    start()
    Py_Finalize();

The embedding models each runtime call as the append of an event to an
execution trace.  The results of the two fallible external calls
(`PyImport_AppendInittab`, which returns -1 on failure, and the
entrypoint hook `start`) are supplied by an environment `Env`; as in the
source, `main` discards both results and never branches on them, and it
never inspects `argc`/`argv`.  The entrypoint headers
(`angelos_entrypoint.h`, `logo_entrypoint.h`) are not part of this
repository slice, so the hook and the module-init symbols are modelled
abstractly.
-/

/-- The module-init symbols named by the sources and the spec.
`PyInit_angelos` is the only one that appears in the given source files;
`PyInit_logo` is the logo variant's own init symbol per the spec. -/
inductive CInit
  | PyInit_angelos
  | PyInit_logo
  deriving DecidableEq, Repr

/-- One observable runtime call made by a launcher.  Fallible calls carry
the success flag the environment assigned to them. -/
inductive Event
  | appendInittab (moduleName : String) (init : CInit) (ok : Bool)
  | initEv
  | startEv (ok : Bool)
  | finalizeEv
  deriving DecidableEq, Repr

/-- The environment of a run: whether `PyImport_AppendInittab` succeeds
(it returns -1 on failure per the embedding API contract) and whether the
external `start` hook reports success. -/
structure Env where
  regOk : Bool
  startOk : Bool
  deriving DecidableEq, Repr

/-- Embedding of `PyImport_AppendInittab(name, init)`: registers the
module, returning 0 on success and -1 on failure, and records the call
on the trace. -/
def PyImport_AppendInittab (moduleName : String) (init : CInit) (env : Env)
    (t : List Event) : Int × List Event :=
  ((if env.regOk then 0 else -1), t ++ [Event.appendInittab moduleName init env.regOk])

/-- Embedding of `Py_Initialize()`: records interpreter start-up on the
trace. -/
def Py_Init (t : List Event) : List Event :=
  t ++ [Event.initEv]

/-- Embedding of the entrypoint hook `start()` (declared by the missing
entrypoint header): its result comes from the environment and is recorded
on the trace. -/
def start (env : Env) (t : List Event) : Int × List Event :=
  ((if env.startOk then 0 else -1), t ++ [Event.startEv env.startOk])

/-- Embedding of `Py_Finalize()`: records interpreter teardown on the
trace. -/
def Py_Finalize (t : List Event) : List Event :=
  t ++ [Event.finalizeEv]

/-- Embedding of `main` in `src/angelos_main.c` (lines 4-9): register
module "angelos" with `PyInit_angelos` (result discarded), bring up the
interpreter, call `start` (result discarded), tear the interpreter down,
and fall off the end of `main`, so the exit status is 0.  `argc` and
`argv` are accepted and never inspected, as in the source. -/
def angelos_main (argc : Nat) (argv : List String) (env : Env) : List Event × Nat :=
  let t0 : List Event := []
  let r1 := PyImport_AppendInittab "angelos" CInit.PyInit_angelos env t0
  let t1 := Py_Init r1.2
  let r2 := start env t1
  let t2 := Py_Finalize r2.2
  (t2, 0)

/-- Embedding of `main` in `src/logo_main.c` (lines 4-9): identical to
`angelos_main` except that the registered name is "logo" — and, exactly
as written in the source, the init symbol passed alongside it is again
`PyInit_angelos`, not `PyInit_logo`. -/
def logo_main (argc : Nat) (argv : List String) (env : Env) : List Event × Nat :=
  let t0 : List Event := []
  let r1 := PyImport_AppendInittab "logo" CInit.PyInit_angelos env t0
  let t1 := Py_Init r1.2
  let r2 := start env t1
  let t2 := Py_Finalize r2.2
  (t2, 0)

/-- The compile-time Application Descriptor of the spec: header file,
module name and the init symbol passed to registration. -/
structure AppDescriptor where
  headerFile : String
  moduleName : String
  moduleInit : CInit
  deriving DecidableEq, Repr

/-- The descriptor `src/angelos_main.c` hard-codes (lines 2 and 5). -/
def angelosDescriptor : AppDescriptor :=
  ⟨"angelos_entrypoint.h", "angelos", CInit.PyInit_angelos⟩

/-- The descriptor `src/logo_main.c` hard-codes (lines 2 and 5): the name
is "logo" but the init symbol written in the source is `PyInit_angelos`. -/
def logoDescriptor : AppDescriptor :=
  ⟨"logo_entrypoint.h", "logo", CInit.PyInit_angelos⟩

/-- The generic launcher both source files instantiate: the same four
calls, parameterized only by the descriptor. -/
def genericMain (d : AppDescriptor) (argc : Nat) (argv : List String) (env : Env) :
    List Event × Nat :=
  let t0 : List Event := []
  let r1 := PyImport_AppendInittab d.moduleName d.moduleInit env t0
  let t1 := Py_Init r1.2
  let r2 := start env t1
  let t2 := Py_Finalize r2.2
  (t2, 0)

/-- Modelled from the spec: the entrypoint headers are not in this
repository slice; per the spec each variant's header exports that
variant's own module init symbol, so the "angelos" module's own init is
`PyInit_angelos` and the "logo" module's own init is `PyInit_logo`. -/
def ownInit (moduleName : String) : CInit :=
  if moduleName = "logo" then CInit.PyInit_logo else CInit.PyInit_angelos

/-- Is the event a module-registration call? -/
def isReg : Event → Bool
  | Event.appendInittab _ _ _ => true
  | _ => false

/-- Is the event the interpreter-initialization call? -/
def isInit : Event → Bool
  | Event.initEv => true
  | _ => false

/-- Is the event the start-hook invocation? -/
def isStart : Event → Bool
  | Event.startEv _ => true
  | _ => false

/-- Is the event the interpreter-finalization call? -/
def isFin : Event → Bool
  | Event.finalizeEv => true
  | _ => false

/-- The trace of an angelos run, explicitly. -/
theorem angelos_trace (argc : Nat) (argv : List String) (env : Env) :
    (angelos_main argc argv env).1 =
      [Event.appendInittab "angelos" CInit.PyInit_angelos env.regOk,
       Event.initEv, Event.startEv env.startOk, Event.finalizeEv] :=
  rfl

/-- The trace of a logo run, explicitly. -/
theorem logo_trace (argc : Nat) (argv : List String) (env : Env) :
    (logo_main argc argv env).1 =
      [Event.appendInittab "logo" CInit.PyInit_angelos env.regOk,
       Event.initEv, Event.startEv env.startOk, Event.finalizeEv] :=
  rfl

/-- The angelos launcher always exits with status 0: `main` has no
return statement, so falling off its end yields status 0. -/
theorem angelos_exit0 (argc : Nat) (argv : List String) (env : Env) :
    (angelos_main argc argv env).2 = 0 :=
  rfl

/-- The logo launcher always exits with status 0: `main` has no return
statement, so falling off its end yields status 0. -/
theorem logo_exit0 (argc : Nat) (argv : List String) (env : Env) :
    (logo_main argc argv env).2 = 0 :=
  rfl

/-- Each source file is the generic launcher applied to its hard-coded
descriptor. -/
theorem both_mains_are_generic (argc : Nat) (argv : List String) (env : Env) :
    angelos_main argc argv env = genericMain angelosDescriptor argc argv env ∧
    logo_main argc argv env = genericMain logoDescriptor argc argv env :=
  ⟨rfl, rfl⟩

/-- Claim C1: the two launcher files are indeed instances of one generic
launcher differing only in the registered name and the header, but the
second half of the claim fails in the source: `src/logo_main.c` line 5
registers module "logo" with `PyInit_angelos`, the angelos module's init
symbol, not the logo variant's own `PyInit_logo` — even though the file
includes `logo_entrypoint.h` and comments that `start` comes from the
logo entrypoint.  This theorem evaluates the code at that point. -/
theorem logo_registers_foreign_init :
    logoDescriptor.moduleInit = CInit.PyInit_angelos ∧
    logoDescriptor.moduleInit ≠ ownInit logoDescriptor.moduleName ∧
    (logo_main 0 [] ⟨true, true⟩).1 =
      [Event.appendInittab "logo" CInit.PyInit_angelos true,
       Event.initEv, Event.startEv true, Event.finalizeEv] := by
  refine ⟨rfl, ?_, rfl⟩
  decide

/-- Claim C2 counterexample: in a run whose start hook fails
(`startOk = false`), both launchers still finalize, but the exit status
is 0 — not non-zero as the claim requires — because `main` discards the
hook's result and falls off its end. -/
theorem start_failure_exit_zero_cex :
    isStart (Event.startEv false) = true ∧
    Event.finalizeEv ∈ (angelos_main 0 [] ⟨true, false⟩).1 ∧
    (angelos_main 0 [] ⟨true, false⟩).2 = 0 ∧
    Event.finalizeEv ∈ (logo_main 0 [] ⟨true, false⟩).1 ∧
    (logo_main 0 [] ⟨true, false⟩).2 = 0 := by
  decide

/-- Claim C2 (amended): if the start hook fails, both launchers still
invoke interpreter finalization, but the process exit status is 0, the
same as on success — the failure is not distinguishable from success. -/
theorem start_failure_still_finalizes (argc : Nat) (argv : List String)
    (env : Env) (h : env.startOk = false) :
    Event.startEv false ∈ (angelos_main argc argv env).1 ∧
    Event.finalizeEv ∈ (angelos_main argc argv env).1 ∧
    (angelos_main argc argv env).2 = 0 ∧
    Event.startEv false ∈ (logo_main argc argv env).1 ∧
    Event.finalizeEv ∈ (logo_main argc argv env).1 ∧
    (logo_main argc argv env).2 = 0 := by
  simp only [angelos_trace, logo_trace, angelos_exit0, logo_exit0]
  obtain ⟨r, s⟩ := env
  cases h
  cases r <;> decide

/-- Witness for the amended C2 theorem at a concrete run. -/
theorem start_failure_still_finalizes_witness :
    (⟨true, false⟩ : Env).startOk = false ∧
    (Event.startEv false ∈ (angelos_main 0 [] ⟨true, false⟩).1 ∧
     Event.finalizeEv ∈ (angelos_main 0 [] ⟨true, false⟩).1 ∧
     (angelos_main 0 [] ⟨true, false⟩).2 = 0 ∧
     Event.startEv false ∈ (logo_main 0 [] ⟨true, false⟩).1 ∧
     Event.finalizeEv ∈ (logo_main 0 [] ⟨true, false⟩).1 ∧
     (logo_main 0 [] ⟨true, false⟩).2 = 0) :=
  ⟨rfl, start_failure_still_finalizes 0 [] ⟨true, false⟩ rfl⟩

/-- Claim C3: in every run of either launcher the single registration
call occurs strictly before the interpreter-initialization call, and no
registration call occurs at or after the initialization call. -/
theorem registration_before_init (argc : Nat) (argv : List String) (env : Env) :
    ((angelos_main argc argv env).1.countP isReg = 1 ∧
     (angelos_main argc argv env).1.findIdx isReg <
       (angelos_main argc argv env).1.findIdx isInit ∧
     (((angelos_main argc argv env).1.drop
        ((angelos_main argc argv env).1.findIdx isInit)).countP isReg = 0)) ∧
    ((logo_main argc argv env).1.countP isReg = 1 ∧
     (logo_main argc argv env).1.findIdx isReg <
       (logo_main argc argv env).1.findIdx isInit ∧
     (((logo_main argc argv env).1.drop
        ((logo_main argc argv env).1.findIdx isInit)).countP isReg = 0)) := by
  simp only [angelos_trace, logo_trace]
  obtain ⟨r, s⟩ := env
  cases r <;> cases s <;> decide

/-- Claim C4: in every run of either launcher in which the start hook
returns successfully, there is exactly one finalization call, it comes
strictly after the start-hook invocation and strictly after the
initialization call, and no finalization call occurs before the
initialization call. -/
theorem finalize_once_after_start (argc : Nat) (argv : List String)
    (env : Env) (h : env.startOk = true) :
    ((angelos_main argc argv env).1.countP isFin = 1 ∧
     (angelos_main argc argv env).1.findIdx isStart <
       (angelos_main argc argv env).1.findIdx isFin ∧
     (angelos_main argc argv env).1.findIdx isInit <
       (angelos_main argc argv env).1.findIdx isFin ∧
     (((angelos_main argc argv env).1.take
        ((angelos_main argc argv env).1.findIdx isInit)).countP isFin = 0)) ∧
    ((logo_main argc argv env).1.countP isFin = 1 ∧
     (logo_main argc argv env).1.findIdx isStart <
       (logo_main argc argv env).1.findIdx isFin ∧
     (logo_main argc argv env).1.findIdx isInit <
       (logo_main argc argv env).1.findIdx isFin ∧
     (((logo_main argc argv env).1.take
        ((logo_main argc argv env).1.findIdx isInit)).countP isFin = 0)) := by
  simp only [angelos_trace, logo_trace]
  obtain ⟨r, s⟩ := env
  cases h
  cases r <;> decide

/-- Witness for the C4 theorem at a concrete run. -/
theorem finalize_once_after_start_witness :
    (⟨true, true⟩ : Env).startOk = true ∧
    (((angelos_main 0 [] ⟨true, true⟩).1.countP isFin = 1 ∧
      (angelos_main 0 [] ⟨true, true⟩).1.findIdx isStart <
        (angelos_main 0 [] ⟨true, true⟩).1.findIdx isFin ∧
      (angelos_main 0 [] ⟨true, true⟩).1.findIdx isInit <
        (angelos_main 0 [] ⟨true, true⟩).1.findIdx isFin ∧
      (((angelos_main 0 [] ⟨true, true⟩).1.take
         ((angelos_main 0 [] ⟨true, true⟩).1.findIdx isInit)).countP isFin = 0)) ∧
     ((logo_main 0 [] ⟨true, true⟩).1.countP isFin = 1 ∧
      (logo_main 0 [] ⟨true, true⟩).1.findIdx isStart <
        (logo_main 0 [] ⟨true, true⟩).1.findIdx isFin ∧
      (logo_main 0 [] ⟨true, true⟩).1.findIdx isInit <
        (logo_main 0 [] ⟨true, true⟩).1.findIdx isFin ∧
      (((logo_main 0 [] ⟨true, true⟩).1.take
         ((logo_main 0 [] ⟨true, true⟩).1.findIdx isInit)).countP isFin = 0))) :=
  ⟨rfl, finalize_once_after_start 0 [] ⟨true, true⟩ rfl⟩

/-- Claim C5: on a run whose start hook returns successfully, the
angelos launcher's trace is exactly registration of "angelos", then
initialization, then the single start-hook call, then finalization, and
its exit status is 0; likewise for the logo launcher with module name
"logo". -/
theorem normal_run_traces (argc : Nat) (argv : List String)
    (env : Env) (h : env.startOk = true) :
    (angelos_main argc argv env).1 =
      [Event.appendInittab "angelos" CInit.PyInit_angelos env.regOk,
       Event.initEv, Event.startEv true, Event.finalizeEv] ∧
    (angelos_main argc argv env).2 = 0 ∧
    (logo_main argc argv env).1 =
      [Event.appendInittab "logo" CInit.PyInit_angelos env.regOk,
       Event.initEv, Event.startEv true, Event.finalizeEv] ∧
    (logo_main argc argv env).2 = 0 := by
  simp only [angelos_trace, logo_trace, angelos_exit0, logo_exit0]
  obtain ⟨r, s⟩ := env
  cases h
  cases r <;> decide

/-- Witness for the C5 theorem at a concrete run. -/
theorem normal_run_traces_witness :
    (⟨true, true⟩ : Env).startOk = true ∧
    ((angelos_main 0 [] ⟨true, true⟩).1 =
       [Event.appendInittab "angelos" CInit.PyInit_angelos true,
        Event.initEv, Event.startEv true, Event.finalizeEv] ∧
     (angelos_main 0 [] ⟨true, true⟩).2 = 0 ∧
     (logo_main 0 [] ⟨true, true⟩).1 =
       [Event.appendInittab "logo" CInit.PyInit_angelos true,
        Event.initEv, Event.startEv true, Event.finalizeEv] ∧
     (logo_main 0 [] ⟨true, true⟩).2 = 0) :=
  ⟨rfl, normal_run_traces 0 [] ⟨true, true⟩ rfl⟩

/-- Claim C6 counterexample: in a run whose registration call fails
(`regOk = false`, so `PyImport_AppendInittab` returns -1), both launchers
nevertheless go on to invoke interpreter initialization — there is no
abort before initialization, refuting the claim at this input. -/
theorem reg_failure_no_abort_cex :
    (angelos_main 0 [] ⟨false, true⟩).1.head? =
      some (Event.appendInittab "angelos" CInit.PyInit_angelos false) ∧
    Event.initEv ∈ (angelos_main 0 [] ⟨false, true⟩).1 ∧
    (logo_main 0 [] ⟨false, true⟩).1.head? =
      some (Event.appendInittab "logo" CInit.PyInit_angelos false) ∧
    Event.initEv ∈ (logo_main 0 [] ⟨false, true⟩).1 := by
  decide

/-- Claim C6 (amended): the launchers discard the result of
`PyImport_AppendInittab`; even when registration fails, both proceed to
interpreter initialization, run the remaining sequence, and exit with
status 0 — no abort occurs. -/
theorem reg_failure_ignored (argc : Nat) (argv : List String)
    (env : Env) (h : env.regOk = false) :
    Event.initEv ∈ (angelos_main argc argv env).1 ∧
    Event.finalizeEv ∈ (angelos_main argc argv env).1 ∧
    (angelos_main argc argv env).2 = 0 ∧
    Event.initEv ∈ (logo_main argc argv env).1 ∧
    Event.finalizeEv ∈ (logo_main argc argv env).1 ∧
    (logo_main argc argv env).2 = 0 := by
  simp only [angelos_trace, logo_trace, angelos_exit0, logo_exit0]
  obtain ⟨r, s⟩ := env
  cases h
  cases s <;> decide

/-- Witness for the amended C6 theorem at a concrete run. -/
theorem reg_failure_ignored_witness :
    (⟨false, true⟩ : Env).regOk = false ∧
    (Event.initEv ∈ (angelos_main 0 [] ⟨false, true⟩).1 ∧
     Event.finalizeEv ∈ (angelos_main 0 [] ⟨false, true⟩).1 ∧
     (angelos_main 0 [] ⟨false, true⟩).2 = 0 ∧
     Event.initEv ∈ (logo_main 0 [] ⟨false, true⟩).1 ∧
     Event.finalizeEv ∈ (logo_main 0 [] ⟨false, true⟩).1 ∧
     (logo_main 0 [] ⟨false, true⟩).2 = 0) :=
  ⟨rfl, reg_failure_ignored 0 [] ⟨false, true⟩ rfl⟩

/-- Claim C7: in every run of either launcher the start hook is invoked
exactly once, and strictly after the interpreter-initialization call.
The embedding is a single sequential trace, matching the source's
straight-line single-threaded `main`, so the invocation is synchronous
on the main thread by construction. -/
theorem start_once_after_init (argc : Nat) (argv : List String) (env : Env) :
    ((angelos_main argc argv env).1.countP isStart = 1 ∧
     (angelos_main argc argv env).1.findIdx isInit <
       (angelos_main argc argv env).1.findIdx isStart) ∧
    ((logo_main argc argv env).1.countP isStart = 1 ∧
     (logo_main argc argv env).1.findIdx isInit <
       (logo_main argc argv env).1.findIdx isStart) := by
  simp only [angelos_trace, logo_trace]
  obtain ⟨r, s⟩ := env
  cases r <;> cases s <;> decide

/-- Claim C8: in every run of either launcher the
interpreter-initialization call occurs exactly once on the trace, so it
is invoked at most once per process lifetime and no path performs a
second initialization at all, with or without an intervening finalize. -/
theorem init_exactly_once (argc : Nat) (argv : List String) (env : Env) :
    (angelos_main argc argv env).1.countP isInit = 1 ∧
    (logo_main argc argv env).1.countP isInit = 1 := by
  simp only [angelos_trace, logo_trace]
  obtain ⟨r, s⟩ := env
  cases r <;> cases s <;> decide

/-- Claim C9: neither launcher inspects `argc` or `argv`; two runs that
differ only in the process arguments produce identical traces and exit
statuses. -/
theorem args_never_inspected (argc argc2 : Nat) (argv argv2 : List String)
    (env : Env) :
    angelos_main argc argv env = angelos_main argc2 argv2 env ∧
    logo_main argc argv env = logo_main argc2 argv2 env :=
  ⟨rfl, rfl⟩

/-- Claim C10: the launchers' behaviour after the start hook does not
depend on the hook's result: for any two results the finalization call
still occurs and the exit status is the same, namely 0, because the
result is discarded and `main` ends without a return statement. -/
theorem start_result_discarded (argc : Nat) (argv : List String)
    (r b b2 : Bool) :
    Event.finalizeEv ∈ (angelos_main argc argv ⟨r, b⟩).1 ∧
    Event.finalizeEv ∈ (angelos_main argc argv ⟨r, b2⟩).1 ∧
    (angelos_main argc argv ⟨r, b⟩).2 = (angelos_main argc argv ⟨r, b2⟩).2 ∧
    (angelos_main argc argv ⟨r, b⟩).2 = 0 ∧
    Event.finalizeEv ∈ (logo_main argc argv ⟨r, b⟩).1 ∧
    Event.finalizeEv ∈ (logo_main argc argv ⟨r, b2⟩).1 ∧
    (logo_main argc argv ⟨r, b⟩).2 = (logo_main argc argv ⟨r, b2⟩).2 ∧
    (logo_main argc argv ⟨r, b⟩).2 = 0 := by
  simp only [angelos_trace, logo_trace, angelos_exit0, logo_exit0]
  cases r <;> cases b <;> cases b2 <;> decide
